import Mathlib

/-
Verification of the swap message codec and the autoswap driver of the
mwc-wallet repository, as a shallow embedding in Lean 4.

The embedding covers:
  * `src/libwallet/src/swap/message.rs` — the `Message` envelope, its
    `Update` / `SecondaryUpdate` payloads, the JSON codec
    (`to_json` / `from_json`) and the `unwrap_*` accessors;
  * `src/controller/src/command.rs` — the `SwapSubcommand::Autoswap`
    driver loop (sliced sleep, error back-off), the buyer refund address
    validation, the file message sender of `SwapSubcommand::Process`,
    and the shared atomic stop flag.

JSON documents are modelled structurally by the `Json` AST below: the
textual layer of serde_json (printing and parsing of the character
stream) is abstracted away, so `from_json` consumes a `Json` value and
`to_json` produces one.  JSON numbers are restricted to nonnegative
integers, which covers every numeric field of the message schema (all
fields are u8/u64).  Error message texts of the original code are kept
only in abridged form.
-/

/-- Structural model of a JSON document (serde_json value).  Numbers are
restricted to nonnegative integers, which is exact for this schema. -/
inductive Json where
  | nul : Json
  | bool (b : Bool) : Json
  | num (n : Nat) : Json
  | str (s : String) : Json
  | arr (elems : List Json) : Json
  | obj (fields : List (String × Json)) : Json

/-- Rust `u64` values. -/
abbrev U64 : Type := Fin (2 ^ 64)

/-- Rust `u8` values. -/
abbrev U8 : Type := Fin 256

/-- The decimal digit `d` (`d < 10`) as a character, `'0'` .. `'9'`. -/
def digitChar (d : Nat) : Char := Char.ofNat (48 + d)

/-- Little-endian decimal digits with structural fuel, so that the
definition evaluates by plain reduction (fuel `n` always suffices for
the number `n`). -/
def natDigitsAux : Nat → Nat → List Nat
  | 0, _ => []
  | _ + 1, 0 => []
  | fuel + 1, n + 1 => (n + 1) % 10 :: natDigitsAux fuel ((n + 1) / 10)

/-- Little-endian list of decimal digits of `n`; empty for `0`. -/
def natDigitsLE (n : Nat) : List Nat := natDigitsAux n n

/-- Value of a little-endian decimal digit list. -/
def ofDigitsLE : List Nat → Nat
  | [] => 0
  | d :: ds => d + 10 * ofDigitsLE ds

theorem ofDigitsLE_natDigitsAux :
    ∀ fuel n, n ≤ fuel → ofDigitsLE (natDigitsAux fuel n) = n := by
  intro fuel
  induction fuel with
  | zero =>
    intro n hn
    have : n = 0 := Nat.le_zero.mp hn
    subst this; rfl
  | succ fuel ih =>
    intro n hn
    match n with
    | 0 => rfl
    | m + 1 =>
      have hstep : natDigitsAux (fuel + 1) (m + 1)
          = (m + 1) % 10 :: natDigitsAux fuel ((m + 1) / 10) := rfl
      have hdiv : (m + 1) / 10 ≤ fuel := by
        have : (m + 1) / 10 < m + 1 := Nat.div_lt_self (Nat.succ_pos m) (by decide)
        omega
      rw [hstep, ofDigitsLE, ih ((m + 1) / 10) hdiv]
      exact Nat.mod_add_div (m + 1) 10

theorem natDigitsAux_lt_ten :
    ∀ fuel n, ∀ d ∈ natDigitsAux fuel n, d < 10 := by
  intro fuel
  induction fuel with
  | zero => intro n d hd; simp [natDigitsAux] at hd
  | succ fuel ih =>
    intro n d hd
    match n with
    | 0 => simp [natDigitsAux] at hd
    | m + 1 =>
      have hstep : natDigitsAux (fuel + 1) (m + 1)
          = (m + 1) % 10 :: natDigitsAux fuel ((m + 1) / 10) := rfl
      rw [hstep] at hd
      rcases List.mem_cons.mp hd with h | h
      · subst h; exact Nat.mod_lt _ (by decide)
      · exact ih ((m + 1) / 10) d h

theorem ofDigitsLE_natDigitsLE (n : Nat) : ofDigitsLE (natDigitsLE n) = n :=
  ofDigitsLE_natDigitsAux n n (Nat.le_refl n)

theorem natDigitsLE_lt_ten (n : Nat) : ∀ d ∈ natDigitsLE n, d < 10 :=
  fun d hd => natDigitsAux_lt_ten n n d hd

/-- Numeric value of a decimal digit character, as in `u64::from_str`. -/
def digitVal? (c : Char) : Option Nat :=
  if 48 ≤ c.toNat ∧ c.toNat ≤ 57 then some (c.toNat - 48) else none

theorem digitVal?_digitChar : ∀ d < 10, digitVal? (digitChar d) = some d := by decide

theorem digitChar_ne_plus : ∀ d < 10, digitChar d ≠ '+' := by decide

/-- All-digits parse of a character list (big-endian). -/
def digitsOfChars : List Char → Option (List Nat)
  | [] => some []
  | c :: cs => do
    let d ← digitVal? c
    let ds ← digitsOfChars cs
    some (d :: ds)

theorem digitsOfChars_map_digitChar (l : List Nat) (hl : ∀ d ∈ l, d < 10) :
    digitsOfChars (l.map digitChar) = some l := by
  induction l with
  | nil => rfl
  | cons d ds ih =>
    have hd : d < 10 := hl d (List.mem_cons_self d ds)
    have hds : ∀ x ∈ ds, x < 10 := fun x hx => hl x (List.mem_cons_of_mem d hx)
    simp [digitsOfChars, digitVal?_digitChar d hd, ih hds]

/-- Modelled from the spec: `u64::from_str` as used by grin
`secp_ser::string_or_u64` (not under src/): an optional leading plus
sign, then one or more decimal digits, with a u64 range check. -/
def parseU64 (s : String) : Option U64 :=
  let cs0 := s.data
  let cs := if cs0.head? = some '+' then cs0.tail else cs0
  if cs.isEmpty then none
  else
    match digitsOfChars cs with
    | none => none
    | some ds =>
      let v := ofDigitsLE ds.reverse
      if h : v < 2 ^ 64 then some ⟨v, h⟩ else none

/-- Modelled from the spec: the `Display` form of a Rust `u64`
(plain decimal, no sign, no leading zeros). -/
def natToDecStr (n : Nat) : String :=
  if n = 0 then "0" else String.mk ((natDigitsLE n).reverse.map digitChar)

theorem parseU64_natToDecStr (n : Nat) (h : n < 2 ^ 64) :
    parseU64 (natToDecStr n) = some ⟨n, h⟩ := by
  by_cases hn : n = 0
  · subst hn
    rfl
  · have hne : natDigitsLE n ≠ [] := by
      match n, hn with
      | m + 1, _ =>
        have hstep : natDigitsLE (m + 1)
            = (m + 1) % 10 :: natDigitsAux m ((m + 1) / 10) := rfl
        rw [hstep]
        exact List.cons_ne_nil _ _
    have hlt : ∀ d ∈ (natDigitsLE n).reverse, d < 10 := by
      intro d hd
      exact natDigitsLE_lt_ten n d (List.mem_reverse.mp hd)
    have hplus : ∀ c ∈ (natDigitsLE n).reverse.map digitChar, c ≠ '+' := by
      intro c hc
      rcases List.mem_map.mp hc with ⟨d, hd, rfl⟩
      exact digitChar_ne_plus d (hlt d hd)
    have hchars : (natDigitsLE n).reverse.map digitChar ≠ [] := by
      simp [hne]
    rw [natToDecStr, if_neg hn]
    match hm : (natDigitsLE n).reverse.map digitChar, hchars with
    | c :: rest, _ =>
      have hcne : c ≠ '+' := hplus c (hm ▸ List.mem_cons_self c rest)
      have hhead : ((String.mk (c :: rest)).data.head? = some '+') = False := by
        simp [String.mk, hcne]
      have hdig : digitsOfChars (c :: rest) = some (natDigitsLE n).reverse := by
        rw [← hm]
        exact digitsOfChars_map_digitChar _ hlt
      simp only [parseU64, String.mk, hhead, if_false, List.isEmpty_cons, hdig,
        eq_self_iff_true, List.reverse_reverse, ofDigitsLE_natDigitsLE]
      simp
      exact h

/-- Decoder for a plain serde `u64` field: accepts a JSON integer in
u64 range, nothing else. -/
def decU64 : Json → Option U64
  | .num n => if h : n < 2 ^ 64 then some ⟨n, h⟩ else none
  | _ => none

/-- Decoder for a plain serde `u8` field. -/
def decU8 : Json → Option U8
  | .num n => if h : n < 256 then some ⟨n, h⟩ else none
  | _ => none

/-- Modelled from the spec: serializer of grin `secp_ser::string_or_u64`
(the crate source is not under src/) — a u64 is written as its decimal
string. -/
def stringOrU64Ser (v : U64) : Json := Json.str (natToDecStr v.val)

/-- Modelled from the spec: deserializer of grin
`secp_ser::string_or_u64` — accepts either a JSON number in u64 range
or a decimal string. -/
def stringOrU64De : Json → Option U64
  | .num n => if h : n < 2 ^ 64 then some ⟨n, h⟩ else none
  | .str s => parseU64 s
  | _ => none

/-- Modelled from the spec: the `Currency` enum of `swap/types.rs`
(declared in the repository but not under src/); the spec and the
`command.rs` match arms give exactly the variants Btc and Bch.  The
derived serde form of a unit variant is its name as a JSON string. -/
inductive Currency where
  | Btc : Currency
  | Bch : Currency
  deriving DecidableEq

def encCurrency : Currency → Json
  | .Btc => .str "Btc"
  | .Bch => .str "Bch"

def decCurrency : Json → Option Currency
  | .str s => if s = "Btc" then some .Btc else if s = "Bch" then some .Bch else none
  | _ => none

/-- Modelled from the spec: the `Network` enum of `swap/types.rs`
(declared in the repository but not under src/); the spec gives the
variants Floonet and Mainnet. -/
inductive Network where
  | Floonet : Network
  | Mainnet : Network
  deriving DecidableEq

def encNetwork : Network → Json
  | .Floonet => .str "Floonet"
  | .Mainnet => .str "Mainnet"

def decNetwork : Json → Option Network
  | .str s =>
    if s = "Floonet" then some .Floonet
    else if s = "Mainnet" then some .Mainnet else none
  | _ => none

/-- The leaf field types of the swap messages that live outside src/
(uuid, chrono, secp keys and signatures, and the repository types
`MultisigParticipant`, `VersionedSlate`, `TxParticipant`, `BtcUpdate`),
abstracted as types bundled with their serde value codecs. -/
structure LeafCodecs : Type 1 where
  Uuid : Type
  DateTime : Type
  MultisigParticipant : Type
  VersionedSlate : Type
  TxParticipant : Type
  PublicKey : Type
  Signature : Type
  BtcUpdate : Type
  encUuid : Uuid → Json
  decUuid : Json → Option Uuid
  encDateTime : DateTime → Json
  decDateTime : Json → Option DateTime
  encMultisig : MultisigParticipant → Json
  decMultisig : Json → Option MultisigParticipant
  encSlate : VersionedSlate → Json
  decSlate : Json → Option VersionedSlate
  encTxPart : TxParticipant → Json
  decTxPart : Json → Option TxParticipant
  encPublicKey : PublicKey → Json
  decPublicKey : Json → Option PublicKey
  encSignature : Signature → Json
  decSignature : Json → Option Signature
  encBtcUpdate : BtcUpdate → Json
  decBtcUpdate : Json → Option BtcUpdate

/-- Round-trip laws of the leaf codecs: each deserializer is a left
inverse of its serializer (which holds of the uuid, chrono RFC3339,
hex-key/signature and derived serde codecs of the real field types). -/
structure LeafLaws (L : LeafCodecs) : Prop where
  uuid : ∀ x, L.decUuid (L.encUuid x) = some x
  dateTime : ∀ x, L.decDateTime (L.encDateTime x) = some x
  multisig : ∀ x, L.decMultisig (L.encMultisig x) = some x
  slate : ∀ x, L.decSlate (L.encSlate x) = some x
  txPart : ∀ x, L.decTxPart (L.encTxPart x) = some x
  publicKey : ∀ x, L.decPublicKey (L.encPublicKey x) = some x
  signature : ∀ x, L.decSignature (L.encSignature x) = some x
  btcUpdate : ∀ x, L.decBtcUpdate (L.encBtcUpdate x) = some x

/-- `OfferUpdate` of message.rs: Seller, Status::Created — the initial
offer.  `primary_amount` and `secondary_amount` carry the
`string_or_u64` serde attribute. -/
structure OfferUpdate (L : LeafCodecs) : Type where
  start_time : L.DateTime
  version : U8
  network : Network
  primary_amount : U64
  secondary_amount : U64
  secondary_currency : Currency
  multisig : L.MultisigParticipant
  lock_slate : L.VersionedSlate
  refund_slate : L.VersionedSlate
  redeem_participant : L.TxParticipant
  required_mwc_lock_confirmations : U64
  required_secondary_lock_confirmations : U64
  mwc_lock_time_seconds : U64
  seller_redeem_time : U64

/-- `AcceptOfferUpdate` of message.rs: Buyer, Status::Offered. -/
structure AcceptOfferUpdate (L : LeafCodecs) : Type where
  multisig : L.MultisigParticipant
  redeem_public : L.PublicKey
  lock_participant : L.TxParticipant
  refund_participant : L.TxParticipant

/-- `InitRedeemUpdate` of message.rs: Buyer, Status::Locked. -/
structure InitRedeemUpdate (L : LeafCodecs) : Type where
  redeem_slate : L.VersionedSlate
  adaptor_signature : L.Signature

/-- `RedeemUpdate` of message.rs: Seller, Status::InitRedeem. -/
structure RedeemUpdate (L : LeafCodecs) : Type where
  redeem_participant : L.TxParticipant

/-- `Update` of message.rs: the swap core data of a Seller/Buyer
message. -/
inductive Update (L : LeafCodecs) : Type where
  | None : Update L
  | Offer (u : OfferUpdate L) : Update L
  | AcceptOffer (u : AcceptOfferUpdate L) : Update L
  | InitRedeem (u : InitRedeemUpdate L) : Update L
  | Redeem (u : RedeemUpdate L) : Update L

/-- `SecondaryUpdate` of message.rs: secondary currency (BTC) data. -/
inductive SecondaryUpdate (L : LeafCodecs) : Type where
  | Empty : SecondaryUpdate L
  | BTC (d : L.BtcUpdate) : SecondaryUpdate L

/-- `Message` of message.rs: the swap message envelope. -/
structure Message (L : LeafCodecs) : Type where
  id : L.Uuid
  inner : Update L
  inner_secondary : SecondaryUpdate L

/-- The `ErrorKind` variants of the repository that the embedded code
constructs (the full enum has further variants, none of which these
functions produce). -/
inductive ErrorKind where
  | Serde (msg : String) : ErrorKind
  | UnexpectedMessageType (msg : String) : ErrorKind
  | UnexpectedCoinType : ErrorKind
  deriving DecidableEq

/-- Look up a struct field in a JSON object the way a derived serde
deserializer accepts it: the key must occur exactly once among the
fields (a missing field and a duplicated known field are both errors;
keys other than `k` are not inspected). -/
def fieldOnce (fs : List (String × Json)) (k : String) : Option Json :=
  match fs.filter (fun p => p.1 == k) with
  | [p] => some p.2
  | _ => none

def encOfferUpdate {L : LeafCodecs} (u : OfferUpdate L) : Json :=
  .obj [("start_time", L.encDateTime u.start_time),
        ("version", .num u.version.val),
        ("network", encNetwork u.network),
        ("primary_amount", stringOrU64Ser u.primary_amount),
        ("secondary_amount", stringOrU64Ser u.secondary_amount),
        ("secondary_currency", encCurrency u.secondary_currency),
        ("multisig", L.encMultisig u.multisig),
        ("lock_slate", L.encSlate u.lock_slate),
        ("refund_slate", L.encSlate u.refund_slate),
        ("redeem_participant", L.encTxPart u.redeem_participant),
        ("required_mwc_lock_confirmations", .num u.required_mwc_lock_confirmations.val),
        ("required_secondary_lock_confirmations", .num u.required_secondary_lock_confirmations.val),
        ("mwc_lock_time_seconds", .num u.mwc_lock_time_seconds.val),
        ("seller_redeem_time", .num u.seller_redeem_time.val)]

/-- One struct field of a derived serde deserializer: locate the key
(exactly once) and decode its value with the field codec. -/
def decField {α : Type} (fs : List (String × Json)) (k : String)
    (d : Json → Option α) : Option α :=
  (fieldOnce fs k).bind d

/-- First half of the `OfferUpdate` field list (split only to keep the
generated code small; the decoded struct is assembled below). -/
def decOfferFields1 {L : LeafCodecs} (fs : List (String × Json)) :
    Option (L.DateTime × U8 × Network × U64 × U64 × Currency × L.MultisigParticipant) := do
  let start_time ← decField fs "start_time" L.decDateTime
  let version ← decField fs "version" decU8
  let network ← decField fs "network" decNetwork
  let primary_amount ← decField fs "primary_amount" stringOrU64De
  let secondary_amount ← decField fs "secondary_amount" stringOrU64De
  let secondary_currency ← decField fs "secondary_currency" decCurrency
  let multisig ← decField fs "multisig" L.decMultisig
  some (start_time, version, network, primary_amount, secondary_amount,
    secondary_currency, multisig)

/-- Second half of the `OfferUpdate` field list. -/
def decOfferFields2 {L : LeafCodecs} (fs : List (String × Json)) :
    Option (L.VersionedSlate × L.VersionedSlate × L.TxParticipant × U64 × U64 × U64 × U64) := do
  let lock_slate ← decField fs "lock_slate" L.decSlate
  let refund_slate ← decField fs "refund_slate" L.decSlate
  let redeem_participant ← decField fs "redeem_participant" L.decTxPart
  let c1 ← decField fs "required_mwc_lock_confirmations" decU64
  let c2 ← decField fs "required_secondary_lock_confirmations" decU64
  let t1 ← decField fs "mwc_lock_time_seconds" decU64
  let t2 ← decField fs "seller_redeem_time" decU64
  some (lock_slate, refund_slate, redeem_participant, c1, c2, t1, t2)

def decOfferUpdate {L : LeafCodecs} : Json → Option (OfferUpdate L)
  | .obj fs =>
    match decOfferFields1 (L := L) fs, decOfferFields2 (L := L) fs with
    | some (start_time, version, network, primary_amount, secondary_amount,
        secondary_currency, multisig),
      some (lock_slate, refund_slate, redeem_participant, c1, c2, t1, t2) =>
      some ⟨start_time, version, network, primary_amount, secondary_amount,
        secondary_currency, multisig, lock_slate, refund_slate,
        redeem_participant, c1, c2, t1, t2⟩
    | _, _ => none
  | _ => none

def encAcceptOfferUpdate {L : LeafCodecs} (u : AcceptOfferUpdate L) : Json :=
  .obj [("multisig", L.encMultisig u.multisig),
        ("redeem_public", L.encPublicKey u.redeem_public),
        ("lock_participant", L.encTxPart u.lock_participant),
        ("refund_participant", L.encTxPart u.refund_participant)]

def decAcceptOfferUpdate {L : LeafCodecs} : Json → Option (AcceptOfferUpdate L)
  | .obj fs => do
    let multisig ← decField fs "multisig" L.decMultisig
    let redeem_public ← decField fs "redeem_public" L.decPublicKey
    let lock_participant ← decField fs "lock_participant" L.decTxPart
    let refund_participant ← decField fs "refund_participant" L.decTxPart
    some ⟨multisig, redeem_public, lock_participant, refund_participant⟩
  | _ => none

def encInitRedeemUpdate {L : LeafCodecs} (u : InitRedeemUpdate L) : Json :=
  .obj [("redeem_slate", L.encSlate u.redeem_slate),
        ("adaptor_signature", L.encSignature u.adaptor_signature)]

def decInitRedeemUpdate {L : LeafCodecs} : Json → Option (InitRedeemUpdate L)
  | .obj fs => do
    let redeem_slate ← decField fs "redeem_slate" L.decSlate
    let adaptor_signature ← decField fs "adaptor_signature" L.decSignature
    some ⟨redeem_slate, adaptor_signature⟩
  | _ => none

def encRedeemUpdate {L : LeafCodecs} (u : RedeemUpdate L) : Json :=
  .obj [("redeem_participant", L.encTxPart u.redeem_participant)]

def decRedeemUpdate {L : LeafCodecs} : Json → Option (RedeemUpdate L)
  | .obj fs => do
    let redeem_participant ← decField fs "redeem_participant" L.decTxPart
    some ⟨redeem_participant⟩
  | _ => none

/-- Derived serde serializer of the externally tagged enum `Update`:
a unit variant becomes its name as a string, a newtype variant a
one-field object. -/
def encUpdate {L : LeafCodecs} : Update L → Json
  | .None => .str "None"
  | .Offer u => .obj [("Offer", encOfferUpdate u)]
  | .AcceptOffer u => .obj [("AcceptOffer", encAcceptOfferUpdate u)]
  | .InitRedeem u => .obj [("InitRedeem", encInitRedeemUpdate u)]
  | .Redeem u => .obj [("Redeem", encRedeemUpdate u)]

/-- Derived serde deserializer of `Update`: a string names a unit
variant; an object must have exactly one entry whose key is a known
variant tag; an unknown tag is an error, never ignored. -/
def decUpdate {L : LeafCodecs} : Json → Option (Update L)
  | .str s => if s = "None" then some .None else none
  | .obj [(tag, v)] =>
    if tag = "None" then
      match v with
      | .nul => some .None
      | _ => none
    else if tag = "Offer" then (decOfferUpdate v).map .Offer
    else if tag = "AcceptOffer" then (decAcceptOfferUpdate v).map .AcceptOffer
    else if tag = "InitRedeem" then (decInitRedeemUpdate v).map .InitRedeem
    else if tag = "Redeem" then (decRedeemUpdate v).map .Redeem
    else none
  | _ => none

def encSecondaryUpdate {L : LeafCodecs} : SecondaryUpdate L → Json
  | .Empty => .str "Empty"
  | .BTC d => .obj [("BTC", L.encBtcUpdate d)]

def decSecondaryUpdate {L : LeafCodecs} : Json → Option (SecondaryUpdate L)
  | .str s => if s = "Empty" then some .Empty else none
  | .obj [(tag, v)] =>
    if tag = "Empty" then
      match v with
      | .nul => some .Empty
      | _ => none
    else if tag = "BTC" then (L.decBtcUpdate v).map .BTC
    else none
  | _ => none

def encMessage {L : LeafCodecs} (m : Message L) : Json :=
  .obj [("id", L.encUuid m.id),
        ("inner", encUpdate m.inner),
        ("inner_secondary", encSecondaryUpdate m.inner_secondary)]

def decMessage {L : LeafCodecs} : Json → Option (Message L)
  | .obj fs => do
    let id ← decField fs "id" L.decUuid
    let inner ← decField fs "inner" decUpdate
    let inner_secondary ← decField fs "inner_secondary" decSecondaryUpdate
    some ⟨id, inner, inner_secondary⟩
  | _ => none

/-- `Message::to_json` of message.rs, at the level of JSON values
(serde_json string printing is abstracted away; serialization of this
type never fails). -/
def Message.to_json {L : LeafCodecs} (m : Message L) : Json := encMessage m

/-- `Message::from_json` of message.rs: `serde_json::from_str`, with
any parse failure mapped to `ErrorKind::Serde` (the embedded error
text is abridged). -/
def Message.from_json {L : LeafCodecs} (j : Json) : Except ErrorKind (Message L) :=
  match decMessage j with
  | some m => .ok m
  | none => .error (.Serde "Unable to parse Swap Message")

/-- Debug rendering of an `Update` value as used in the
`UnexpectedMessageType` error texts.  The payload contents are
abstracted to `(..)` (the real `derive(Debug)` output prints the
payload fields, whose types are opaque in this embedding). -/
def Update.dbg {L : LeafCodecs} : Update L → String
  | .None => "None"
  | .Offer _ => "Offer(..)"
  | .AcceptOffer _ => "AcceptOffer(..)"
  | .InitRedeem _ => "InitRedeem(..)"
  | .Redeem _ => "Redeem(..)"

/-- Variant discriminator of `Update`, used only to state theorems. -/
inductive UpdTag where
  | none' : UpdTag
  | offer' : UpdTag
  | acceptOffer' : UpdTag
  | initRedeem' : UpdTag
  | redeem' : UpdTag
  deriving DecidableEq

def Update.tag {L : LeafCodecs} : Update L → UpdTag
  | .None => .none'
  | .Offer _ => .offer'
  | .AcceptOffer _ => .acceptOffer'
  | .InitRedeem _ => .initRedeem'
  | .Redeem _ => .redeem'

/-- `Message::unwrap_offer` of message.rs. -/
def Message.unwrap_offer {L : LeafCodecs} (m : Message L) :
    Except ErrorKind (L.Uuid × OfferUpdate L × SecondaryUpdate L) :=
  match m.inner with
  | .Offer u => .ok (m.id, u, m.inner_secondary)
  | i => .error (.UnexpectedMessageType
      ("Fn unwrap_offer() expecting Update::Offer, get " ++ i.dbg))

/-- `Message::unwrap_accept_offer` of message.rs. -/
def Message.unwrap_accept_offer {L : LeafCodecs} (m : Message L) :
    Except ErrorKind (L.Uuid × AcceptOfferUpdate L × SecondaryUpdate L) :=
  match m.inner with
  | .AcceptOffer u => .ok (m.id, u, m.inner_secondary)
  | i => .error (.UnexpectedMessageType
      ("Fn unwrap_accept_offer() expecting Update::AcceptOffer, get " ++ i.dbg))

/-- `Message::unwrap_init_redeem` of message.rs. -/
def Message.unwrap_init_redeem {L : LeafCodecs} (m : Message L) :
    Except ErrorKind (L.Uuid × InitRedeemUpdate L × SecondaryUpdate L) :=
  match m.inner with
  | .InitRedeem u => .ok (m.id, u, m.inner_secondary)
  | i => .error (.UnexpectedMessageType
      ("Fn unwrap_init_redeem() expecting Update::InitRedeem, get " ++ i.dbg))

/-- `Message::unwrap_redeem` of message.rs. -/
def Message.unwrap_redeem {L : LeafCodecs} (m : Message L) :
    Except ErrorKind (L.Uuid × RedeemUpdate L × SecondaryUpdate L) :=
  match m.inner with
  | .Redeem u => .ok (m.id, u, m.inner_secondary)
  | i => .error (.UnexpectedMessageType
      ("Fn unwrap_redeem() expecting Update::Redeem, get " ++ i.dbg))

/-- `SecondaryUpdate::unwrap_btc` of message.rs. -/
def SecondaryUpdate.unwrap_btc {L : LeafCodecs} :
    SecondaryUpdate L → Except ErrorKind L.BtcUpdate
  | .BTC d => .ok d
  | _ => .error .UnexpectedCoinType

theorem decU64_num (v : U64) : decU64 (.num v.val) = some v := by
  simp [decU64, v.isLt]

theorem decU8_num (v : U8) : decU8 (.num v.val) = some v := by
  simp [decU8, v.isLt]

theorem stringOrU64De_ser (v : U64) : stringOrU64De (stringOrU64Ser v) = some v := by
  rw [stringOrU64Ser]
  show parseU64 (natToDecStr v.val) = some v
  rw [parseU64_natToDecStr v.val v.isLt]

theorem decNetwork_enc (x : Network) : decNetwork (encNetwork x) = some x := by
  cases x <;> rfl

theorem decCurrency_enc (x : Currency) : decCurrency (encCurrency x) = some x := by
  cases x <;> rfl

theorem decOfferUpdate_enc {L : LeafCodecs} (H : LeafLaws L) (u : OfferUpdate L) :
    decOfferUpdate (L := L) (encOfferUpdate u) = some u := by
  simp [encOfferUpdate, decOfferUpdate, decOfferFields1, decOfferFields2,
    decField, fieldOnce, H.dateTime, H.multisig, H.slate, H.txPart,
    decU8_num, decNetwork_enc, decCurrency_enc, stringOrU64De_ser, decU64_num]

theorem decAcceptOfferUpdate_enc {L : LeafCodecs} (H : LeafLaws L) (u : AcceptOfferUpdate L) :
    decAcceptOfferUpdate (L := L) (encAcceptOfferUpdate u) = some u := by
  simp [encAcceptOfferUpdate, decAcceptOfferUpdate, decField, fieldOnce,
    H.multisig, H.publicKey, H.txPart]

theorem decInitRedeemUpdate_enc {L : LeafCodecs} (H : LeafLaws L) (u : InitRedeemUpdate L) :
    decInitRedeemUpdate (L := L) (encInitRedeemUpdate u) = some u := by
  simp [encInitRedeemUpdate, decInitRedeemUpdate, decField, fieldOnce,
    H.slate, H.signature]

theorem decRedeemUpdate_enc {L : LeafCodecs} (H : LeafLaws L) (u : RedeemUpdate L) :
    decRedeemUpdate (L := L) (encRedeemUpdate u) = some u := by
  simp [encRedeemUpdate, decRedeemUpdate, decField, fieldOnce, H.txPart]

theorem decUpdate_enc {L : LeafCodecs} (H : LeafLaws L) (x : Update L) :
    decUpdate (L := L) (encUpdate x) = some x := by
  cases x with
  | None => rfl
  | Offer u => simp [encUpdate, decUpdate, decOfferUpdate_enc H]
  | AcceptOffer u => simp [encUpdate, decUpdate, decAcceptOfferUpdate_enc H]
  | InitRedeem u => simp [encUpdate, decUpdate, decInitRedeemUpdate_enc H]
  | Redeem u => simp [encUpdate, decUpdate, decRedeemUpdate_enc H]

theorem decSecondaryUpdate_enc {L : LeafCodecs} (H : LeafLaws L) (x : SecondaryUpdate L) :
    decSecondaryUpdate (L := L) (encSecondaryUpdate x) = some x := by
  cases x with
  | Empty => rfl
  | BTC d => simp [encSecondaryUpdate, decSecondaryUpdate, H.btcUpdate]

theorem decMessage_enc {L : LeafCodecs} (H : LeafLaws L) (m : Message L) :
    decMessage (L := L) (encMessage m) = some m := by
  simp [encMessage, decMessage, decField, fieldOnce, H.uuid,
    decUpdate_enc H, decSecondaryUpdate_enc H]

theorem from_json_to_json {L : LeafCodecs} (H : LeafLaws L) (m : Message L) :
    Message.from_json (Message.to_json m) = Except.ok m := by
  rw [Message.to_json, Message.from_json, decMessage_enc H]

def escChar (c : Char) : String :=
  if c = '"' then "\\\"" else if c = '\\' then "\\\\" else String.singleton c

/-- JSON string escaping, limited to quotes and backslashes (enough for
every text this development prints). -/
def escapeStr (s : String) : String := String.join (s.data.map escChar)

mutual
/-- Printer from the `Json` AST to document text, standing in for
`serde_json::to_string`. -/
def printJson : Json → String
  | .nul => "null"
  | .bool b => cond b "true" "false"
  | .num n => natToDecStr n
  | .str s => "\"" ++ escapeStr s ++ "\""
  | .arr xs => "[" ++ printJsonList xs ++ "]"
  | .obj fs => "\x7b" ++ printJsonFields fs ++ "\x7d"

def printJsonList : List Json → String
  | [] => ""
  | [x] => printJson x
  | x :: xs => printJson x ++ "," ++ printJsonList xs

def printJsonFields : List (String × Json) → String
  | [] => ""
  | [(k, v)] => "\"" ++ escapeStr k ++ "\":" ++ printJson v
  | (k, v) :: fs => "\"" ++ escapeStr k ++ "\":" ++ printJson v ++ "," ++ printJsonFields fs
end

/-- `Message::to_json` seen as the text producer of message.rs:
`serde_json::to_string` cannot fail on this type, so the result is
always `Ok`. -/
def Message.to_json_string {L : LeafCodecs} (m : Message L) : Except ErrorKind String :=
  .ok (printJson (Message.to_json m))

/-- The error kinds of `crate::libwallet::Error` / the controller
`Error` that the embedded command code constructs. -/
inductive CmdError where
  | ArgumentError (msg : String) : CmdError
  | GenericError (msg : String) : CmdError
  | LibWallet (msg : String) : CmdError
  | SwapError (msg : String) : CmdError
  deriving DecidableEq

/-- The stop-flag checks of the driver's sliced sleep are numbered; the
shared atomic flag is modelled as the value each numbered load
observes. -/
def StopFlagTrace : Type := Nat → Bool

/-- The `for _i in 0..seconds_to_sleep` sleep of the autoswap loop
(command.rs): before each 1-second slice the stop flag is loaded (load
number `k` for the first check); on a set flag the loop breaks.
Returns (number of 1-second slices actually slept, whether the stop
flag was observed). -/
def sleepSlices (stop : StopFlagTrace) : Nat → Nat → Nat × Bool
  | _, 0 => (0, false)
  | k, n + 1 =>
    if stop k then (0, true)
    else
      let r := sleepSlices stop (k + 1) n
      (r.1 + 1, r.2)

/-- Result type of `owner_swap::swap_process` as consumed by the
autoswap loop (fields beyond the three used there are omitted). -/
structure ProcessResult (StateId Action Journal : Type) : Type where
  next_state_id : StateId
  action : Option Action
  journal : List Journal

/-- How one iteration of the autoswap loop ends. -/
inductive IterExit where
  | errorRetry : IterExit
  | finished : IterExit
  | stopped : IterExit
  | nextIteration : IterExit
  deriving DecidableEq

/-- Observable outcome of one iteration of the autoswap loop. -/
structure IterResult (StateId Action Journal : Type) : Type where
  exit : IterExit
  executed : Bool
  sleepSeconds : Nat
  sleptSlices : Nat
  errorSleepMs : Nat
  state : Option StateId
  journal : Option (List Journal)

/-- One iteration of the `wallet-auto-swap` thread loop of command.rs
(`SwapSubcommand::Autoswap`).  External effects are inputs:
`statusRes` is the result of `owner_swap::update_swap_status_action`,
`processRes` the result of `owner_swap::swap_process` (consulted only
when the action is executable), and `stop` the values successive loads
of the shared stop flag observe.  `state`/`journal` are the driver's
current-state and journal variables at the end of the iteration
(`none` when the status call failed and the iteration restarts without
touching them). -/
def autoswapIter {StateId Action Journal Err : Type}
    (isFinal : StateId → Bool) (canExecute : Action → Bool)
    (statusRes : Except Err (StateId × Action × List Journal))
    (processRes : Except Err (ProcessResult StateId Action Journal))
    (stop : StopFlagTrace) : IterResult StateId Action Journal :=
  match statusRes with
  | .error _ =>
    { exit := .errorRetry, executed := false, sleepSeconds := 0,
      sleptSlices := 0, errorSleepMs := 10000, state := none, journal := none }
  | .ok (st0, act0, jr0) =>
    if isFinal st0 then
      { exit := .finished, executed := false, sleepSeconds := 0,
        sleptSlices := 0, errorSleepMs := 0, state := some st0, journal := some jr0 }
    else
      let (st, _act, jr, was_executed) :=
        if canExecute act0 then
          match processRes with
          | .ok res => (res.next_state_id, res.action.getD act0, res.journal, true)
          | .error _ => (st0, act0, jr0, true)
        else (st0, act0, jr0, false)
      let seconds_to_sleep := if was_executed then 10 else 60
      let slept := sleepSlices stop 0 seconds_to_sleep
      { exit := if slept.2 then .stopped else .nextIteration,
        executed := was_executed, sleepSeconds := seconds_to_sleep,
        sleptSlices := slept.1, errorSleepMs := 0,
        state := some st, journal := some jr }

/-- The fields of the swap record consulted by the autoswap preflight
checks of command.rs. -/
structure SwapInfo : Type where
  is_seller : Bool
  secondary_currency : Currency

/-- The subset of `SwapArgs` (command.rs) that the embedded
`SwapSubcommand::Autoswap` logic reads. -/
structure SwapArgs : Type where
  swap_id : Option String
  method : Option String
  destination : Option String
  buyer_refund_address : Option String
  start_listener : Bool

/-- External environment of the autoswap command: listener state,
address validators, the `BitcoinAddress::from_str` parser, and the
results of the three owner-API calls made before the driver thread is
spawned. -/
structure CmdEnv (Addr Status : Type) : Type where
  mqsRunning : Bool
  foreignApiRunning : Bool
  validMqsAddr : String → Bool
  validTorAddr : String → Bool
  parseBtcAddr : String → Option Addr
  swapGet : Except CmdError SwapInfo
  confStatus : Except CmdError Unit
  statusAction : Except CmdError Status

/-- Buyer-side refund address validation of `SwapSubcommand::Autoswap`
(command.rs, the `if !swap.is_seller()` block): a missing address or
one `BitcoinAddress::from_str` rejects is an error. -/
def validateBuyerRefundAddress {Addr : Type} (parseBtcAddr : String → Option Addr)
    (swap : SwapInfo) (buyer_refund_address : Option String) : Except CmdError Unit :=
  if swap.is_seller then .ok ()
  else
    match buyer_refund_address with
    | some addr =>
      match swap.secondary_currency with
      | .Btc | .Bch =>
        match parseBtcAddr addr with
        | some _ => .ok ()
        | none => .error (.GenericError
            ("Unable to parse secondary currency redeem address " ++ addr))
    | none => .error (.GenericError
        "Please define buyer_refund_address for automated swap")

/-- The `--start_listener` block of `SwapSubcommand::Autoswap`: starts
the requested listener (modelled as flipping the corresponding running
flag), errors when it is already running or the method is unsupported. -/
def startListenerStep {Addr Status : Type} (env : CmdEnv Addr Status)
    (method : String) (start_listener : Bool) : Except CmdError (CmdEnv Addr Status) :=
  if start_listener then
    if method = "mwcmqs" then
      if env.mqsRunning then
        .error (.GenericError "mwcmqs listener is already running")
      else .ok { env with mqsRunning := true }
    else if method = "tor" then
      if env.foreignApiRunning then
        .error (.GenericError "tor or http listener is already running")
      else .ok { env with foreignApiRunning := true }
    else .error (.ArgumentError ("Auto Swap does not support communication method " ++ method))
  else .ok env

/-- The readiness checks of `SwapSubcommand::Autoswap`: destination
address validation and listener-running check per method; any other
method is an error. -/
def checkTransportReady {Addr Status : Type} (env : CmdEnv Addr Status)
    (method destination : String) : Except CmdError Unit :=
  if method = "mwcmqs" then
    if env.validMqsAddr destination then
      if env.mqsRunning then .ok ()
      else .error (.GenericError "mqcmqs listener is not running")
    else .error (.ArgumentError "Invalid destination address")
  else if method = "tor" then
    if env.validTorAddr destination then
      if env.foreignApiRunning then .ok ()
      else .error (.GenericError "tor listener is not running")
    else .error (.ArgumentError "Invalid destination address")
  else .error (.ArgumentError ("Auto Swap does not support communication method " ++ method))

/-- Everything `SwapSubcommand::Autoswap` runs between the stop-flag
reset and the spawn of the driver thread, in source order: listener
start, transport readiness, `swap_get`, `get_swap_tx_tstatus`,
`update_swap_status_action`, and the buyer refund address validation. -/
def autoswapPreflight {Addr Status : Type} (env : CmdEnv Addr Status)
    (method destination : String) (start_listener : Bool)
    (buyer_refund_address : Option String) : Except CmdError Unit := do
  let env2 ← startListenerStep env method start_listener
  checkTransportReady env2 method destination
  let swap ← env.swapGet
  env.confStatus
  let _status ← env.statusAction
  validateBuyerRefundAddress env.parseBtcAddr swap buyer_refund_address

/-- Outcome of running the `SwapSubcommand::Autoswap` arm: the value of
the shared stop flag afterwards, whether the `wallet-auto-swap` driver
thread was spawned, and the command result. -/
structure AutoswapOutcome : Type where
  stopFlag : Bool
  driverStarted : Bool
  result : Except CmdError Unit

/-- The `SwapSubcommand::Autoswap` arm of command.rs up to the spawn of
the driver thread.  After the three required arguments are extracted,
`stop_thread.swap(false, Ordering::Relaxed)` runs unconditionally, so
every later path — error or spawn — leaves the shared flag cleared. -/
def autoswapCommand {Addr Status : Type} (env : CmdEnv Addr Status)
    (args : SwapArgs) (stopFlag0 : Bool) : AutoswapOutcome :=
  match args.swap_id with
  | none => ⟨stopFlag0, false, .error (.ArgumentError "Not found expected swap_id argument")⟩
  | some _swap_id =>
    match args.method with
    | none => ⟨stopFlag0, false, .error (.ArgumentError "Please define method parameter for autoswap")⟩
    | some method =>
      match args.destination with
      | none => ⟨stopFlag0, false, .error (.ArgumentError "Please define destination address for automated swap")⟩
      | some destination =>
        match autoswapPreflight env method destination args.start_listener
            args.buyer_refund_address with
        | .ok _ => ⟨false, true, .ok ()⟩
        | .error e => ⟨false, false, .error e⟩

/-- The confirmation test of `SwapSubcommand::StopAllAutoSwap`:
`answer.trim().to_lowercase().starts_with("y")`, phrased over the
character list (leading whitespace dropped, first character lowercased
and compared with y; trailing whitespace cannot affect the first
character). -/
def confirmsStopAll (answer : String) : Bool :=
  match (answer.data.dropWhile Char.isWhitespace).map Char.toLower with
  | 'y' :: _ => true
  | _ => false

/-- The `SwapSubcommand::StopAllAutoSwap` arm of command.rs: on a
confirming answer the shared stop flag is set; otherwise it is left as
it was. -/
def stopAllAutoSwap (answer : String) (stopFlag0 : Bool) : Bool :=
  if confirmsStopAll answer then true else stopFlag0

/-- Outcome of one call of the `SwapSubcommand::Process` file message
sender: what was written (destination path and contents) and the
returned ack or error. -/
structure FileSendOutcome : Type where
  written : Option (String × String)
  result : Except CmdError Bool

/-- The `message_sender` closure of `SwapSubcommand::Process`
(command.rs) for a non-listener method (the `_` arm, i.e. the file
transport): serialize the message, create the destination file and
write the text; a successful write returns `Ok(true)` (a file write
counts as a delivery ack), a failed write is a `SwapError`.  The
`mwcmqs` / `tor` arms delegate to the online sender, modelled by the
opaque `onlineSend` result. -/
def fileMessageSender {L : LeafCodecs}
    (fileWrite : String → String → Except String Unit)
    (onlineSend : Except CmdError Bool)
    (destination : Option String) (method : String)
    (swap_message : Message L) : FileSendOutcome :=
  match destination with
  | none => ⟨none, .error (.SwapError "Expected destination argument is not found")⟩
  | some dest =>
    if method = "mwcmqs" ∨ method = "tor" then ⟨none, onlineSend⟩
    else
      match Message.to_json_string swap_message with
      | .error _ => ⟨none, .error (.SwapError "Unable to serialize a message")⟩
      | .ok msg_str =>
        match fileWrite dest msg_str with
        | .ok _ => ⟨some (dest, msg_str), .ok true⟩
        | .error e => ⟨none, .error (.SwapError
            ("Unable to store message data to the destination file, " ++ e))⟩

/-- Decoder of the `Nat` stand-in leaf used by the concrete witnesses. -/
def decNatLeaf : Json → Option Nat
  | .num n => some n
  | _ => none

/-- Concrete instantiation of the leaf codecs used by the witnesses:
every abstract leaf type is `Nat`, encoded as a JSON number. -/
abbrev TestLeaf : LeafCodecs :=
  { Uuid := Nat, DateTime := Nat, MultisigParticipant := Nat,
    VersionedSlate := Nat, TxParticipant := Nat, PublicKey := Nat,
    Signature := Nat, BtcUpdate := Nat,
    encUuid := Json.num, decUuid := decNatLeaf,
    encDateTime := Json.num, decDateTime := decNatLeaf,
    encMultisig := Json.num, decMultisig := decNatLeaf,
    encSlate := Json.num, decSlate := decNatLeaf,
    encTxPart := Json.num, decTxPart := decNatLeaf,
    encPublicKey := Json.num, decPublicKey := decNatLeaf,
    encSignature := Json.num, decSignature := decNatLeaf,
    encBtcUpdate := Json.num, decBtcUpdate := decNatLeaf }

theorem testLeafLaws : LeafLaws TestLeaf :=
  ⟨fun _ => rfl, fun _ => rfl, fun _ => rfl, fun _ => rfl,
   fun _ => rfl, fun _ => rfl, fun _ => rfl, fun _ => rfl⟩

/-- A concrete offer payload (values echo the happy-path scenario of
the spec). -/
def offer1 : OfferUpdate TestLeaf :=
  { start_time := 11, version := 1, network := .Mainnet,
    primary_amount := 1000000000, secondary_amount := 10000,
    secondary_currency := .Btc, multisig := 21, lock_slate := 31,
    refund_slate := 41, redeem_participant := 51,
    required_mwc_lock_confirmations := 1,
    required_secondary_lock_confirmations := 1,
    mwc_lock_time_seconds := 3600, seller_redeem_time := 3600 }

def msg1 : Message TestLeaf := ⟨7, .Offer offer1, .BTC 61⟩

def msgOfferEmpty : Message TestLeaf := ⟨8, .Offer offer1, .Empty⟩

def initRedeem1 : InitRedeemUpdate TestLeaf := ⟨71, 81⟩

def msg2 : Message TestLeaf := ⟨9, .InitRedeem initRedeem1, .Empty⟩

/-- Append one extra field to a JSON object (identity on non-objects);
used to state the unknown-field claims. -/
def addField : Json → String → Json → Json
  | .obj fs, k, v => .obj (fs ++ [(k, v)])
  | j, _, _ => j

theorem fieldOnce_append_other (fs : List (String × Json)) (k key : String)
    (v : Json) (h : k ≠ key) :
    fieldOnce (fs ++ [(k, v)]) key = fieldOnce fs key := by
  have hb : ((k, v).1 == key) = false := by simp [h]
  simp [fieldOnce, List.filter_append, hb]

/-- Appending a field whose key is none of the `Message` keys does not
change the result of the message decoder. -/
theorem decMessage_obj_append_unknown {L : LeafCodecs}
    (fs : List (String × Json)) (k : String) (v : Json)
    (h1 : k ≠ "id") (h2 : k ≠ "inner") (h3 : k ≠ "inner_secondary") :
    decMessage (L := L) (.obj (fs ++ [(k, v)])) = decMessage (L := L) (.obj fs) := by
  simp [decMessage, decField, fieldOnce_append_other fs k "id" v h1,
    fieldOnce_append_other fs k "inner" v h2,
    fieldOnce_append_other fs k "inner_secondary" v h3]

/-- If the stop flag is observed set at check number `k + t` and the
sliced sleep still has more than `t` slices to go, then at most `t`
slices are slept and the loop reports the stop. -/
theorem sleepSlices_stopped (stop : StopFlagTrace) :
    ∀ n k t, stop (k + t) = true → t < n →
      (sleepSlices stop k n).1 ≤ t ∧ (sleepSlices stop k n).2 = true := by
  intro n
  induction n with
  | zero => intro k t _ ht; omega
  | succ n ih =>
    intro k t hstop ht
    by_cases h0 : stop k = true
    · have hred : sleepSlices stop k (n + 1) = (0, true) := by
        rw [sleepSlices]
        simp [h0]
      rw [hred]
      exact ⟨Nat.zero_le t, rfl⟩
    · have hne : stop k = false := by
        cases hsk : stop k
        · rfl
        · exact absurd hsk h0
      have ht0 : t ≠ 0 := by
        intro he
        subst he
        rw [Nat.add_zero] at hstop
        exact h0 hstop
      match t, ht0, hstop, ht with
      | t' + 1, _, hstop, ht =>
        have hstop' : stop ((k + 1) + t') = true := by
          have e : k + (t' + 1) = (k + 1) + t' := by omega
          rw [← e]
          exact hstop
        obtain ⟨ih1, ih2⟩ := ih (k + 1) t' hstop' (by omega)
        have hred : sleepSlices stop k (n + 1)
            = ((sleepSlices stop (k + 1) n).1 + 1, (sleepSlices stop (k + 1) n).2) := by
          rw [sleepSlices]
          simp [hne]
        rw [hred]
        exact ⟨by omega, ih2⟩

/-- If the whole preflight of the autoswap command succeeded, the buyer
refund address validation succeeded on the swap record returned by
`swap_get`. -/
theorem autoswapPreflight_ok_validate {Addr Status : Type} (env : CmdEnv Addr Status)
    (method destination : String) (start_listener : Bool)
    (buyer_refund_address : Option String) (swap : SwapInfo)
    (hswap : env.swapGet = Except.ok swap)
    (h : autoswapPreflight env method destination start_listener buyer_refund_address
      = Except.ok ()) :
    validateBuyerRefundAddress env.parseBtcAddr swap buyer_refund_address
      = Except.ok () := by
  unfold autoswapPreflight at h
  rw [hswap] at h
  simp only [bind, Except.bind] at h
  repeat' split at h
  all_goals simp_all

/-- A buyer-side trade whose refund address is missing or unparseable
fails the refund address validation. -/
theorem validateBuyerRefundAddress_bad {Addr : Type}
    (parse : String → Option Addr) (swap : SwapInfo) (bra : Option String)
    (hb : swap.is_seller = false)
    (hbad : ∀ a, bra = some a → parse a = none) :
    validateBuyerRefundAddress parse swap bra ≠ Except.ok () := by
  intro h
  unfold validateBuyerRefundAddress at h
  rw [hb] at h
  simp only [Bool.false_eq_true, if_false] at h
  cases bra with
  | none => simp at h
  | some a =>
    have hpa := hbad a rfl
    cases hc : swap.secondary_currency <;> rw [hc] at h <;> simp [hpa] at h

/-- C1: for every constructible `Message` (any swap id, any `Update`
variant with its payload, any `SecondaryUpdate`), given that the leaf
field codecs round-trip, `Message::from_json (Message::to_json m)`
succeeds and returns a message equal to `m`: same id, same inner
variant and payload, same inner_secondary. -/
theorem C1_roundtrip_codec {L : LeafCodecs} (H : LeafLaws L) (m : Message L) :
    Message.from_json (Message.to_json m) = Except.ok m :=
  from_json_to_json H m

/-- Witness for C1 at a concrete offer message over the `Nat` leaf
instantiation. -/
theorem C1_roundtrip_codec_witness :
    Message.from_json (Message.to_json msg1) = Except.ok msg1 :=
  C1_roundtrip_codec testLeafLaws msg1

/-- C2 counterexample: `Message::from_json` accepts a message whose
`inner` is an `Offer` while `inner_secondary` is `Empty`, so the
claimed joint-consistency check (`Offer` only with `BTC(..)`) does not
happen in `from_json`. -/
theorem C2_joint_consistency_counterexample :
    Message.from_json (Message.to_json msgOfferEmpty) = Except.ok msgOfferEmpty ∧
    msgOfferEmpty.inner = Update.Offer offer1 ∧
    msgOfferEmpty.inner_secondary = SecondaryUpdate.Empty :=
  ⟨rfl, rfl, rfl⟩

/-- C2 (amended): `Message::from_json` performs no consistency check
between `inner` and `inner_secondary` — a message whose components
individually parse is accepted, Offer-with-Empty included.  The
`Offer` ⇒ `BTC` requirement is enforced only later, by the callers:
`SecondaryUpdate::unwrap_btc` yields `UnexpectedCoinType` on `Empty`
and succeeds exactly on `BTC` payloads. -/
theorem C2_joint_consistency_amended {L : LeafCodecs} (H : LeafLaws L)
    (id : L.Uuid) (u : OfferUpdate L) :
    Message.from_json (Message.to_json (Message.mk id (Update.Offer u) SecondaryUpdate.Empty))
      = Except.ok (Message.mk id (Update.Offer u) SecondaryUpdate.Empty) ∧
    SecondaryUpdate.unwrap_btc (L := L) SecondaryUpdate.Empty
      = Except.error ErrorKind.UnexpectedCoinType ∧
    (∀ d : L.BtcUpdate, SecondaryUpdate.unwrap_btc (SecondaryUpdate.BTC d) = Except.ok d) :=
  ⟨from_json_to_json H _, rfl, fun _ => rfl⟩

/-- Witness for C2 (amended) at the concrete Offer-with-Empty message. -/
theorem C2_joint_consistency_amended_witness :
    Message.from_json (Message.to_json (Message.mk 8 (Update.Offer offer1) SecondaryUpdate.Empty))
      = Except.ok (Message.mk 8 (Update.Offer offer1) SecondaryUpdate.Empty) ∧
    SecondaryUpdate.unwrap_btc (L := TestLeaf) SecondaryUpdate.Empty
      = Except.error ErrorKind.UnexpectedCoinType ∧
    (∀ d : Nat, SecondaryUpdate.unwrap_btc (L := TestLeaf) (SecondaryUpdate.BTC d) = Except.ok d) :=
  C2_joint_consistency_amended testLeafLaws 8 offer1

/-- C3 counterexample: a document carrying the field
`undocumented_field`, which belongs to no message schema, is accepted
by `Message::from_json` (serde ignores unknown struct fields when
`deny_unknown_fields` is absent, as it is here). -/
theorem C3_unknown_field_counterexample :
    Message.from_json (addField (Message.to_json msg2) "undocumented_field" (Json.num 1))
      = Except.ok msg2 :=
  rfl

/-- Add an extra field inside the payload object of an externally
tagged enum encoding (identity on the string form of a unit variant). -/
def addPayloadField : Json → String → Json → Json
  | .obj [(tag, p)], k, v => .obj [(tag, addField p k v)]
  | j, _, _ => j

/-- The serde field names of the payload carried by each `Update`
variant. -/
def Update.payloadKeys {L : LeafCodecs} : Update L → List String
  | .None => []
  | .Offer _ => ["start_time", "version", "network", "primary_amount",
      "secondary_amount", "secondary_currency", "multisig", "lock_slate",
      "refund_slate", "redeem_participant", "required_mwc_lock_confirmations",
      "required_secondary_lock_confirmations", "mwc_lock_time_seconds",
      "seller_redeem_time"]
  | .AcceptOffer _ => ["multisig", "redeem_public", "lock_participant",
      "refund_participant"]
  | .InitRedeem _ => ["redeem_slate", "adaptor_signature"]
  | .Redeem _ => ["redeem_participant"]

/-- Appending a field whose key is none of the `OfferUpdate` keys does
not change the result of the offer payload decoder. -/
theorem decOfferUpdate_obj_append_unknown {L : LeafCodecs}
    (fs : List (String × Json)) (k : String) (v : Json)
    (k1 : k ≠ "start_time") (k2 : k ≠ "version") (k3 : k ≠ "network")
    (k4 : k ≠ "primary_amount") (k5 : k ≠ "secondary_amount")
    (k6 : k ≠ "secondary_currency") (k7 : k ≠ "multisig")
    (k8 : k ≠ "lock_slate") (k9 : k ≠ "refund_slate")
    (k10 : k ≠ "redeem_participant") (k11 : k ≠ "required_mwc_lock_confirmations")
    (k12 : k ≠ "required_secondary_lock_confirmations")
    (k13 : k ≠ "mwc_lock_time_seconds") (k14 : k ≠ "seller_redeem_time") :
    decOfferUpdate (L := L) (.obj (fs ++ [(k, v)]))
      = decOfferUpdate (L := L) (.obj fs) := by
  simp [decOfferUpdate, decOfferFields1, decOfferFields2, decField,
    fieldOnce_append_other fs k "start_time" v k1,
    fieldOnce_append_other fs k "version" v k2,
    fieldOnce_append_other fs k "network" v k3,
    fieldOnce_append_other fs k "primary_amount" v k4,
    fieldOnce_append_other fs k "secondary_amount" v k5,
    fieldOnce_append_other fs k "secondary_currency" v k6,
    fieldOnce_append_other fs k "multisig" v k7,
    fieldOnce_append_other fs k "lock_slate" v k8,
    fieldOnce_append_other fs k "refund_slate" v k9,
    fieldOnce_append_other fs k "redeem_participant" v k10,
    fieldOnce_append_other fs k "required_mwc_lock_confirmations" v k11,
    fieldOnce_append_other fs k "required_secondary_lock_confirmations" v k12,
    fieldOnce_append_other fs k "mwc_lock_time_seconds" v k13,
    fieldOnce_append_other fs k "seller_redeem_time" v k14]

/-- Appending a field whose key is none of the `AcceptOfferUpdate` keys
does not change the result of its payload decoder. -/
theorem decAcceptOfferUpdate_obj_append_unknown {L : LeafCodecs}
    (fs : List (String × Json)) (k : String) (v : Json)
    (k1 : k ≠ "multisig") (k2 : k ≠ "redeem_public")
    (k3 : k ≠ "lock_participant") (k4 : k ≠ "refund_participant") :
    decAcceptOfferUpdate (L := L) (.obj (fs ++ [(k, v)]))
      = decAcceptOfferUpdate (L := L) (.obj fs) := by
  simp [decAcceptOfferUpdate, decField,
    fieldOnce_append_other fs k "multisig" v k1,
    fieldOnce_append_other fs k "redeem_public" v k2,
    fieldOnce_append_other fs k "lock_participant" v k3,
    fieldOnce_append_other fs k "refund_participant" v k4]

/-- Appending a field whose key is none of the `InitRedeemUpdate` keys
does not change the result of its payload decoder. -/
theorem decInitRedeemUpdate_obj_append_unknown {L : LeafCodecs}
    (fs : List (String × Json)) (k : String) (v : Json)
    (k1 : k ≠ "redeem_slate") (k2 : k ≠ "adaptor_signature") :
    decInitRedeemUpdate (L := L) (.obj (fs ++ [(k, v)]))
      = decInitRedeemUpdate (L := L) (.obj fs) := by
  simp [decInitRedeemUpdate, decField,
    fieldOnce_append_other fs k "redeem_slate" v k1,
    fieldOnce_append_other fs k "adaptor_signature" v k2]

/-- Appending a field whose key is not the `RedeemUpdate` key does not
change the result of its payload decoder. -/
theorem decRedeemUpdate_obj_append_unknown {L : LeafCodecs}
    (fs : List (String × Json)) (k : String) (v : Json)
    (k1 : k ≠ "redeem_participant") :
    decRedeemUpdate (L := L) (.obj (fs ++ [(k, v)]))
      = decRedeemUpdate (L := L) (.obj fs) := by
  simp [decRedeemUpdate, decField,
    fieldOnce_append_other fs k "redeem_participant" v k1]

/-- C3 (amended): an unknown field added to the `Message` object, or to
the payload object of whichever `Update` variant the message carries,
is silently ignored by `from_json` (the decoded message is unchanged),
while an unknown variant tag of `Update` or of `SecondaryUpdate` is
rejected. -/
theorem C3_unknown_fields_amended {L : LeafCodecs} (H : LeafLaws L) (m : Message L)
    (k : String) (v : Json)
    (h1 : k ≠ "id") (h2 : k ≠ "inner") (h3 : k ≠ "inner_secondary") :
    Message.from_json (addField (Message.to_json m) k v) = Except.ok m ∧
    (∀ (k' : String) (v' : Json), k' ∉ m.inner.payloadKeys →
      Message.from_json (Json.obj [("id", L.encUuid m.id),
        ("inner", addPayloadField (encUpdate m.inner) k' v'),
        ("inner_secondary", encSecondaryUpdate m.inner_secondary)])
        = Except.ok m) ∧
    (∀ (tag : String) (pj : Json), tag ≠ "None" → tag ≠ "Offer" →
      tag ≠ "AcceptOffer" → tag ≠ "InitRedeem" → tag ≠ "Redeem" →
      decUpdate (L := L) (Json.obj [(tag, pj)]) = none) ∧
    (∀ (tag : String) (pj : Json), tag ≠ "Empty" → tag ≠ "BTC" →
      decSecondaryUpdate (L := L) (Json.obj [(tag, pj)]) = none) := by
  obtain ⟨mid, inner, sec⟩ := m
  refine ⟨?_, ?_, ?_, ?_⟩
  · have hdm : decMessage (L := L)
        (addField (Message.to_json ⟨mid, inner, sec⟩) k v) = some ⟨mid, inner, sec⟩ := by
      have he : addField (Message.to_json ⟨mid, inner, sec⟩) k v
          = Json.obj ([("id", L.encUuid mid), ("inner", encUpdate inner),
              ("inner_secondary", encSecondaryUpdate sec)] ++ [(k, v)]) := rfl
      rw [he, decMessage_obj_append_unknown _ _ _ h1 h2 h3]
      exact decMessage_enc H ⟨mid, inner, sec⟩
    unfold Message.from_json
    rw [hdm]
  · intro k' v' hk
    cases inner with
    | None =>
      exact from_json_to_json H ⟨mid, Update.None, sec⟩
    | Offer u =>
      simp [Update.payloadKeys] at hk
      obtain ⟨q1, q2, q3, q4, q5, q6, q7, q8, q9, q10, q11, q12, q13, q14⟩ := hk
      have hpay : decOfferUpdate (L := L) (addField (encOfferUpdate u) k' v')
          = some u := by
        have he : decOfferUpdate (L := L) (addField (encOfferUpdate u) k' v')
            = decOfferUpdate (L := L) (encOfferUpdate u) :=
          decOfferUpdate_obj_append_unknown _ k' v'
            q1 q2 q3 q4 q5 q6 q7 q8 q9 q10 q11 q12 q13 q14
        rw [he]
        exact decOfferUpdate_enc H u
      have hupd : decUpdate (L := L)
          (Json.obj [("Offer", addField (encOfferUpdate u) k' v')])
          = some (Update.Offer u) := by
        simp [decUpdate, hpay]
      have hdm : decMessage (L := L) (Json.obj [("id", L.encUuid mid),
          ("inner", Json.obj [("Offer", addField (encOfferUpdate u) k' v')]),
          ("inner_secondary", encSecondaryUpdate sec)])
          = some ⟨mid, Update.Offer u, sec⟩ := by
        simp [decMessage, decField, fieldOnce, H.uuid, hupd, decSecondaryUpdate_enc H]
      unfold Message.from_json
      rw [show addPayloadField (encUpdate (Update.Offer u)) k' v'
          = Json.obj [("Offer", addField (encOfferUpdate u) k' v')] from rfl]
      rw [hdm]
    | AcceptOffer u =>
      simp [Update.payloadKeys] at hk
      obtain ⟨q1, q2, q3, q4⟩ := hk
      have hpay : decAcceptOfferUpdate (L := L) (addField (encAcceptOfferUpdate u) k' v')
          = some u := by
        have he : decAcceptOfferUpdate (L := L) (addField (encAcceptOfferUpdate u) k' v')
            = decAcceptOfferUpdate (L := L) (encAcceptOfferUpdate u) :=
          decAcceptOfferUpdate_obj_append_unknown _ k' v' q1 q2 q3 q4
        rw [he]
        exact decAcceptOfferUpdate_enc H u
      have hupd : decUpdate (L := L)
          (Json.obj [("AcceptOffer", addField (encAcceptOfferUpdate u) k' v')])
          = some (Update.AcceptOffer u) := by
        simp [decUpdate, hpay]
      have hdm : decMessage (L := L) (Json.obj [("id", L.encUuid mid),
          ("inner", Json.obj [("AcceptOffer", addField (encAcceptOfferUpdate u) k' v')]),
          ("inner_secondary", encSecondaryUpdate sec)])
          = some ⟨mid, Update.AcceptOffer u, sec⟩ := by
        simp [decMessage, decField, fieldOnce, H.uuid, hupd, decSecondaryUpdate_enc H]
      unfold Message.from_json
      rw [show addPayloadField (encUpdate (Update.AcceptOffer u)) k' v'
          = Json.obj [("AcceptOffer", addField (encAcceptOfferUpdate u) k' v')] from rfl]
      rw [hdm]
    | InitRedeem u =>
      simp [Update.payloadKeys] at hk
      obtain ⟨q1, q2⟩ := hk
      have hpay : decInitRedeemUpdate (L := L) (addField (encInitRedeemUpdate u) k' v')
          = some u := by
        have he : decInitRedeemUpdate (L := L) (addField (encInitRedeemUpdate u) k' v')
            = decInitRedeemUpdate (L := L) (encInitRedeemUpdate u) :=
          decInitRedeemUpdate_obj_append_unknown _ k' v' q1 q2
        rw [he]
        exact decInitRedeemUpdate_enc H u
      have hupd : decUpdate (L := L)
          (Json.obj [("InitRedeem", addField (encInitRedeemUpdate u) k' v')])
          = some (Update.InitRedeem u) := by
        simp [decUpdate, hpay]
      have hdm : decMessage (L := L) (Json.obj [("id", L.encUuid mid),
          ("inner", Json.obj [("InitRedeem", addField (encInitRedeemUpdate u) k' v')]),
          ("inner_secondary", encSecondaryUpdate sec)])
          = some ⟨mid, Update.InitRedeem u, sec⟩ := by
        simp [decMessage, decField, fieldOnce, H.uuid, hupd, decSecondaryUpdate_enc H]
      unfold Message.from_json
      rw [show addPayloadField (encUpdate (Update.InitRedeem u)) k' v'
          = Json.obj [("InitRedeem", addField (encInitRedeemUpdate u) k' v')] from rfl]
      rw [hdm]
    | Redeem u =>
      simp [Update.payloadKeys] at hk
      have hpay : decRedeemUpdate (L := L) (addField (encRedeemUpdate u) k' v')
          = some u := by
        have he : decRedeemUpdate (L := L) (addField (encRedeemUpdate u) k' v')
            = decRedeemUpdate (L := L) (encRedeemUpdate u) :=
          decRedeemUpdate_obj_append_unknown _ k' v' hk
        rw [he]
        exact decRedeemUpdate_enc H u
      have hupd : decUpdate (L := L)
          (Json.obj [("Redeem", addField (encRedeemUpdate u) k' v')])
          = some (Update.Redeem u) := by
        simp [decUpdate, hpay]
      have hdm : decMessage (L := L) (Json.obj [("id", L.encUuid mid),
          ("inner", Json.obj [("Redeem", addField (encRedeemUpdate u) k' v')]),
          ("inner_secondary", encSecondaryUpdate sec)])
          = some ⟨mid, Update.Redeem u, sec⟩ := by
        simp [decMessage, decField, fieldOnce, H.uuid, hupd, decSecondaryUpdate_enc H]
      unfold Message.from_json
      rw [show addPayloadField (encUpdate (Update.Redeem u)) k' v'
          = Json.obj [("Redeem", addField (encRedeemUpdate u) k' v')] from rfl]
      rw [hdm]
  · intro tag pj t1 t2 t3 t4 t5
    simp [decUpdate, t1, t2, t3, t4, t5]
  · intro tag pj t1 t2
    simp [decSecondaryUpdate, t1, t2]

/-- Witness for C3 (amended): a concrete extra field is ignored at the
message level and inside the offer payload object, and concrete
unknown tags of `Update` and `SecondaryUpdate` are rejected. -/
theorem C3_unknown_fields_amended_witness :
    Message.from_json (addField (Message.to_json msg1) "extra_data" Json.nul)
      = Except.ok msg1 ∧
    Message.from_json (Json.obj [("id", TestLeaf.encUuid msg1.id),
        ("inner", addPayloadField (encUpdate msg1.inner) "extra_data" Json.nul),
        ("inner_secondary", encSecondaryUpdate msg1.inner_secondary)])
      = Except.ok msg1 ∧
    decUpdate (L := TestLeaf) (Json.obj [("Offered", Json.nul)]) = none ∧
    decSecondaryUpdate (L := TestLeaf) (Json.obj [("LTC", Json.nul)]) = none :=
  ⟨(C3_unknown_fields_amended testLeafLaws msg1 "extra_data" Json.nul
      (by decide) (by decide) (by decide)).1,
   (C3_unknown_fields_amended testLeafLaws msg1 "extra_data" Json.nul
      (by decide) (by decide) (by decide)).2.1 "extra_data" Json.nul (by decide),
   (C3_unknown_fields_amended testLeafLaws msg1 "extra_data" Json.nul
      (by decide) (by decide) (by decide)).2.2.1 "Offered" Json.nul
      (by decide) (by decide) (by decide) (by decide) (by decide),
   (C3_unknown_fields_amended testLeafLaws msg1 "extra_data" Json.nul
      (by decide) (by decide) (by decide)).2.2.2 "LTC" Json.nul
      (by decide) (by decide)⟩

/-- C4: each of the four unwrap operations returns
`Ok((id, payload, inner_secondary))` exactly on a message whose
`inner` is the matching variant, and `Err(UnexpectedMessageType ..)`
on every other variant (the message value is consumed, no state is
touched). -/
theorem C4_unwrap_typing {L : LeafCodecs} (m : Message L) :
    (∀ u, m.inner = Update.Offer u →
        m.unwrap_offer = Except.ok (m.id, u, m.inner_secondary)) ∧
    (m.inner.tag ≠ UpdTag.offer' →
        m.unwrap_offer = Except.error (ErrorKind.UnexpectedMessageType
          ("Fn unwrap_offer() expecting Update::Offer, get " ++ m.inner.dbg))) ∧
    (∀ u, m.inner = Update.AcceptOffer u →
        m.unwrap_accept_offer = Except.ok (m.id, u, m.inner_secondary)) ∧
    (m.inner.tag ≠ UpdTag.acceptOffer' →
        m.unwrap_accept_offer = Except.error (ErrorKind.UnexpectedMessageType
          ("Fn unwrap_accept_offer() expecting Update::AcceptOffer, get " ++ m.inner.dbg))) ∧
    (∀ u, m.inner = Update.InitRedeem u →
        m.unwrap_init_redeem = Except.ok (m.id, u, m.inner_secondary)) ∧
    (m.inner.tag ≠ UpdTag.initRedeem' →
        m.unwrap_init_redeem = Except.error (ErrorKind.UnexpectedMessageType
          ("Fn unwrap_init_redeem() expecting Update::InitRedeem, get " ++ m.inner.dbg))) ∧
    (∀ u, m.inner = Update.Redeem u →
        m.unwrap_redeem = Except.ok (m.id, u, m.inner_secondary)) ∧
    (m.inner.tag ≠ UpdTag.redeem' →
        m.unwrap_redeem = Except.error (ErrorKind.UnexpectedMessageType
          ("Fn unwrap_redeem() expecting Update::Redeem, get " ++ m.inner.dbg))) := by
  obtain ⟨i, inner, s⟩ := m
  refine ⟨?_, ?_, ?_, ?_, ?_, ?_, ?_, ?_⟩
  · intro u hu
    cases hu
    rfl
  · intro ht
    cases inner
    case Offer u => exact absurd rfl ht
    all_goals rfl
  · intro u hu
    cases hu
    rfl
  · intro ht
    cases inner
    case AcceptOffer u => exact absurd rfl ht
    all_goals rfl
  · intro u hu
    cases hu
    rfl
  · intro ht
    cases inner
    case InitRedeem u => exact absurd rfl ht
    all_goals rfl
  · intro u hu
    cases hu
    rfl
  · intro ht
    cases inner
    case Redeem u => exact absurd rfl ht
    all_goals rfl

/-- Witness for C4: the matching unwrap succeeds and a mismatching one
fails with `UnexpectedMessageType` on a concrete offer message. -/
theorem C4_unwrap_typing_witness :
    msg1.unwrap_offer = Except.ok (msg1.id, offer1, msg1.inner_secondary) ∧
    msg1.unwrap_redeem = Except.error (ErrorKind.UnexpectedMessageType
      ("Fn unwrap_redeem() expecting Update::Redeem, get " ++ msg1.inner.dbg)) :=
  ⟨(C4_unwrap_typing msg1).1 offer1 rfl,
   (C4_unwrap_typing msg1).2.2.2.2.2.2.2 (by decide)⟩

/-- C8: the `string_or_u64` codec of the two `OfferUpdate` amount
fields accepts both the JSON number and the decimal string encoding of
a u64 and decodes both to that same value, and the encoder emits a
form (the decimal string) that the decoder accepts. -/
theorem C8_string_or_u64_amounts (v : U64) :
    stringOrU64De (Json.num v.val) = some v ∧
    stringOrU64De (Json.str (natToDecStr v.val)) = some v ∧
    stringOrU64Ser v = Json.str (natToDecStr v.val) ∧
    stringOrU64De (stringOrU64Ser v) = some v := by
  refine ⟨?_, ?_, rfl, stringOrU64De_ser v⟩
  · simp [stringOrU64De, v.isLt]
  · show parseU64 (natToDecStr v.val) = some v
    rw [parseU64_natToDecStr v.val v.isLt]

/-- The sliced sleep of a non-final iteration, characterized up to the
state/journal pair (which depends on the `swap_process` branch). -/
theorem autoswapIter_reduce {StateId Action Journal Err : Type}
    (isFinal : StateId → Bool) (canExecute : Action → Bool)
    (processRes : Except Err (ProcessResult StateId Action Journal))
    (stop : StopFlagTrace) (st : StateId) (act : Action) (jr : List Journal)
    (hfin : isFinal st = false) :
    ∃ st' jr',
      autoswapIter isFinal canExecute (Except.ok (st, act, jr)) processRes stop =
      { exit := if (sleepSlices stop 0 (if canExecute act then 10 else 60)).2
                then IterExit.stopped else IterExit.nextIteration,
        executed := canExecute act,
        sleepSeconds := if canExecute act then 10 else 60,
        sleptSlices := (sleepSlices stop 0 (if canExecute act then 10 else 60)).1,
        errorSleepMs := 0,
        state := some st', journal := some jr' } := by
  by_cases he : canExecute act = true
  · cases processRes with
    | ok res => exact ⟨res.next_state_id, res.journal, by simp [autoswapIter, hfin, he]⟩
    | error e => exact ⟨st, jr, by simp [autoswapIter, hfin, he]⟩
  · have he' : canExecute act = false := by
      cases hc : canExecute act
      · rfl
      · exact absurd hc he
    exact ⟨st, jr, by simp [autoswapIter, hfin, he']⟩

/-- C5: in every non-final iteration of the autoswap loop the driver
sleeps 10 seconds when the action was executable (and hence executed)
and 60 seconds otherwise; the sleep is performed as 1-second slices
with the stop flag checked before each slice, so when the flag is
observed set at check `t` the iteration sleeps at most `t` slices and
the loop breaks — within one second of sleeping after the flag is
set. -/
theorem C5_sleep_slicing {StateId Action Journal Err : Type}
    (isFinal : StateId → Bool) (canExecute : Action → Bool)
    (statusRes : Except Err (StateId × Action × List Journal))
    (processRes : Except Err (ProcessResult StateId Action Journal))
    (stop : StopFlagTrace) (st : StateId) (act : Action) (jr : List Journal)
    (hok : statusRes = Except.ok (st, act, jr)) (hfin : isFinal st = false) :
    (autoswapIter isFinal canExecute statusRes processRes stop).executed = canExecute act ∧
    (autoswapIter isFinal canExecute statusRes processRes stop).sleepSeconds
      = (if canExecute act then 10 else 60) ∧
    (∀ t, stop t = true →
      t < (autoswapIter isFinal canExecute statusRes processRes stop).sleepSeconds →
      (autoswapIter isFinal canExecute statusRes processRes stop).sleptSlices ≤ t ∧
      (autoswapIter isFinal canExecute statusRes processRes stop).exit
        = IterExit.stopped) := by
  subst hok
  obtain ⟨st', jr', hiter⟩ :=
    autoswapIter_reduce isFinal canExecute processRes stop st act jr hfin
  rw [hiter]
  refine ⟨rfl, rfl, ?_⟩
  intro t hstop ht
  have hts : t < (if canExecute act then 10 else 60) := ht
  have hs := sleepSlices_stopped stop (if canExecute act then 10 else 60) 0 t
    (by simpa using hstop) hts
  exact ⟨hs.1, by simp [hs.2]⟩

def wFinal : Nat → Bool := fun s => decide (s ≥ 100)

def wExec : Nat → Bool := fun _ => true

def wStop : StopFlagTrace := fun i => decide (3 ≤ i)

/-- Witness for C5 at a concrete iteration: the flag set from check 3
onwards stops the 10-second sleep after at most 3 slices. -/
theorem C5_sleep_slicing_witness :
    (autoswapIter wFinal wExec
        (Except.ok (0, 5, ([] : List Nat)) : Except Nat (Nat × Nat × List Nat))
        (Except.ok ⟨1, none, []⟩ : Except Nat (ProcessResult Nat Nat Nat))
        wStop).sleptSlices ≤ 3 ∧
    (autoswapIter wFinal wExec
        (Except.ok (0, 5, ([] : List Nat)) : Except Nat (Nat × Nat × List Nat))
        (Except.ok ⟨1, none, []⟩ : Except Nat (ProcessResult Nat Nat Nat))
        wStop).exit = IterExit.stopped :=
  (C5_sleep_slicing wFinal wExec
    (Except.ok (0, 5, ([] : List Nat)) : Except Nat (Nat × Nat × List Nat))
    (Except.ok ⟨1, none, []⟩ : Except Nat (ProcessResult Nat Nat Nat))
    wStop 0 5 [] rfl rfl).2.2 3 rfl (by decide)

/-- C6: when `update_swap_status_action` fails, the iteration logs,
backs off 10000 ms and restarts: nothing is executed and the driver
variables are untouched; when `swap_process` fails, the iteration
keeps exactly the state and journal that the status call returned —
errors never advance the recorded state. -/
theorem C6_error_handling {StateId Action Journal Err : Type}
    (isFinal : StateId → Bool) (canExecute : Action → Bool)
    (processRes : Except Err (ProcessResult StateId Action Journal))
    (stop : StopFlagTrace) (e : Err) :
    autoswapIter isFinal canExecute (Except.error e) processRes stop =
      { exit := IterExit.errorRetry, executed := false, sleepSeconds := 0,
        sleptSlices := 0, errorSleepMs := 10000, state := none, journal := none } ∧
    (∀ (st : StateId) (act : Action) (jr : List Journal) (e' : Err),
      isFinal st = false → canExecute act = true →
      (autoswapIter isFinal canExecute (Except.ok (st, act, jr)) (Except.error e') stop).state
        = some st ∧
      (autoswapIter isFinal canExecute (Except.ok (st, act, jr)) (Except.error e') stop).journal
        = some jr ∧
      (autoswapIter isFinal canExecute (Except.ok (st, act, jr)) (Except.error e') stop).executed
        = true) := by
  constructor
  · rfl
  · intro st act jr e' hfin he
    refine ⟨?_, ?_, ?_⟩ <;> simp [autoswapIter, hfin, he]

/-- Witness for C6: a concrete failing `swap_process` leaves the status
state and journal in place. -/
theorem C6_error_handling_witness :
    (autoswapIter wFinal wExec (Except.ok (0, 5, ([] : List Nat)))
        (Except.error 9) wStop).state = some 0 ∧
    (autoswapIter wFinal wExec (Except.ok (0, 5, ([] : List Nat)))
        (Except.error 9) wStop).journal = some [] ∧
    (autoswapIter wFinal wExec (Except.ok (0, 5, ([] : List Nat)))
        (Except.error 9) wStop).executed = true :=
  (C6_error_handling wFinal wExec (Except.error 9) wStop 9).2 0 5 [] 9 rfl rfl

/-- C7: on a Buyer-side trade a missing or unparseable buyer refund
address makes the autoswap preflight fail: the command returns an
error and the driver thread is never spawned, so no swap action runs
and no lock can be reached through this invocation. -/
theorem C7_buyer_refund_abort {Addr Status : Type} (env : CmdEnv Addr Status)
    (args : SwapArgs) (f0 : Bool) (i mth dest : String) (swap : SwapInfo)
    (h1 : args.swap_id = some i) (h2 : args.method = some mth)
    (h3 : args.destination = some dest)
    (hswap : env.swapGet = Except.ok swap) (hbuyer : swap.is_seller = false)
    (hbad : ∀ a, args.buyer_refund_address = some a → env.parseBtcAddr a = none) :
    (autoswapCommand env args f0).driverStarted = false ∧
    (autoswapCommand env args f0).result.isOk = false := by
  have hval := validateBuyerRefundAddress_bad env.parseBtcAddr swap
    args.buyer_refund_address hbuyer hbad
  have hpf : ∀ u : Unit, autoswapPreflight env mth dest args.start_listener
      args.buyer_refund_address ≠ Except.ok u := by
    intro u hok
    cases u
    exact hval (autoswapPreflight_ok_validate env mth dest args.start_listener
      args.buyer_refund_address swap hswap hok)
  cases hres : autoswapPreflight env mth dest args.start_listener args.buyer_refund_address with
  | ok u => exact absurd hres (hpf u)
  | error e =>
    constructor <;> simp [autoswapCommand, h1, h2, h3, hres, Except.isOk, Except.toBool]

def wEnv : CmdEnv Nat Nat :=
  { mqsRunning := true, foreignApiRunning := false,
    validMqsAddr := fun _ => true, validTorAddr := fun _ => true,
    parseBtcAddr := fun _ => none,
    swapGet := Except.ok ⟨false, Currency.Btc⟩,
    confStatus := Except.ok (), statusAction := Except.ok 0 }

def wArgs : SwapArgs :=
  { swap_id := some "trade-1", method := some "mwcmqs",
    destination := some "mqs-addr", buyer_refund_address := none,
    start_listener := false }

/-- Witness for C7: a concrete Buyer trade with no refund address
aborts before the driver thread starts. -/
theorem C7_buyer_refund_abort_witness :
    (autoswapCommand wEnv wArgs true).driverStarted = false ∧
    (autoswapCommand wEnv wArgs true).result.isOk = false :=
  C7_buyer_refund_abort wEnv wArgs true "trade-1" "mwcmqs" "mqs-addr"
    ⟨false, Currency.Btc⟩ rfl rfl rfl rfl rfl (fun _ h => Option.noConfusion h)

/-- C9: the file-transport message sender writes the JSON serialization
of the swap message to the destination file; a successful write always
returns the ack `true`, a failed write returns an error, and the
sender never returns a `false` ack. -/
theorem C9_file_sender_ack {L : LeafCodecs}
    (fileWrite : String → String → Except String Unit)
    (onlineSend : Except CmdError Bool) (dest : String) (mth : String)
    (m : Message L) (hm1 : mth ≠ "mwcmqs") (hm2 : mth ≠ "tor") :
    (fileWrite dest (printJson (Message.to_json m)) = Except.ok () →
      fileMessageSender fileWrite onlineSend (some dest) mth m =
        ⟨some (dest, printJson (Message.to_json m)), Except.ok true⟩) ∧
    (∀ err, fileWrite dest (printJson (Message.to_json m)) = Except.error err →
      fileMessageSender fileWrite onlineSend (some dest) mth m =
        ⟨none, Except.error (CmdError.SwapError
          ("Unable to store message data to the destination file, " ++ err))⟩) ∧
    (fileMessageSender fileWrite onlineSend (some dest) mth m).result
      ≠ Except.ok false := by
  refine ⟨?_, ?_, ?_⟩
  · intro hw
    simp [fileMessageSender, hm1, hm2, Message.to_json_string, hw]
  · intro err hw
    simp [fileMessageSender, hm1, hm2, Message.to_json_string, hw]
  · cases hw : fileWrite dest (printJson (Message.to_json m)) with
    | ok u =>
      cases u
      simp [fileMessageSender, hm1, hm2, Message.to_json_string, hw]
    | error err => simp [fileMessageSender, hm1, hm2, Message.to_json_string, hw]

def wWrite : String → String → Except String Unit := fun _ _ => Except.ok ()

/-- Witness for C9: a concrete successful write returns the `true`
ack with the serialized message stored at the destination. -/
theorem C9_file_sender_ack_witness :
    fileMessageSender wWrite (Except.ok true) (some "message.swap") "file" msg1 =
      ⟨some ("message.swap", printJson (Message.to_json msg1)), Except.ok true⟩ :=
  (C9_file_sender_ack wWrite (Except.ok true) "message.swap" "file" msg1
    (by decide) (by decide)).1 rfl

/-- C10: with the three required arguments present, the autoswap
command clears the shared stop flag whatever its previous value and
whatever happens later (error or driver spawn); in particular the flag
set by a confirmed stop-all request is cleared again. -/
theorem C10_stop_flag_reset {Addr Status : Type} (env : CmdEnv Addr Status)
    (args : SwapArgs) (f0 : Bool) (i mth dest : String)
    (h1 : args.swap_id = some i) (h2 : args.method = some mth)
    (h3 : args.destination = some dest) :
    (autoswapCommand env args f0).stopFlag = false ∧
    stopAllAutoSwap "yes" f0 = true ∧
    (autoswapCommand env args (stopAllAutoSwap "yes" f0)).stopFlag = false := by
  refine ⟨?_, rfl, ?_⟩ <;>
    · cases hres : autoswapPreflight env mth dest args.start_listener
          args.buyer_refund_address <;>
        simp [autoswapCommand, h1, h2, h3, hres]

/-- Witness for C10 at concrete arguments: a previously stopped flag is
cleared by the next autoswap invocation. -/
theorem C10_stop_flag_reset_witness :
    (autoswapCommand wEnv wArgs true).stopFlag = false ∧
    stopAllAutoSwap "yes" true = true ∧
    (autoswapCommand wEnv wArgs (stopAllAutoSwap "yes" true)).stopFlag = false :=
  C10_stop_flag_reset wEnv wArgs true "trade-1" "mwcmqs" "mqs-addr" rfl rfl rfl
